import Mathlib

/-!
Verification of the adaptive element-location engine of the Google Lens
scraper (`src/agent_browser.py`, with selector tables from
`src/constants.py`).

The Python code is shallowly embedded as executable Lean definitions:

* Python dicts become insertion-ordered association lists (`alookup` /
  `aset` reproduce dict lookup and in-place update / append-at-end
  insertion);
* floats (`success_rate`) are modelled as exact rationals `ℚ`, which
  agrees with IEEE division and comparison at all realistic counter
  sizes;
* ISO-format `last_used` timestamp strings, which compare
  lexicographically iff chronologically, are modelled as `Nat`
  (the creation placeholder `None` is overwritten in the same call of
  `record_selector_success`, so every reachable record has a timestamp);
* `sorted(..., reverse=True)` (a stable sort) is modelled by
  `List.insertionSort` with the reflexive "key not below" relation: a
  stable sort w.r.t. a total preorder is unique, so this is exact;
* external effects (the live page, the OpenAI endpoint, `exec` of
  generated code) are supplied as environment records describing the
  outcome of each primitive operation, and the control flow around them
  is translated statement by statement.
-/

/-! ### Association lists modelling Python dicts -/

/-- Python `d[k]` / `k in d`: first (unique) binding of `k`. -/
def alookup {β : Type} : List (String × β) → String → Option β
  | [], _ => none
  | (k', v) :: rest, k => if k' == k then some v else alookup rest k

/-- Python `d[k] = v`: replace in place if present, else append at the end
(insertion order of Python dicts). -/
def aset {β : Type} : List (String × β) → String → β → List (String × β)
  | [], k, v => [(k, v)]
  | (k', v') :: rest, k, v =>
    if k' == k then (k, v) :: rest else (k', v') :: aset rest k v

theorem alookup_aset_self {β : Type} (l : List (String × β)) (k : String) (v : β) :
    alookup (aset l k v) k = some v := by
  induction l with
  | nil => simp [aset, alookup]
  | cons p rest ih =>
    obtain ⟨k', v'⟩ := p
    by_cases h : k' = k
    · subst h; simp [aset, alookup]
    · simp only [aset, alookup, beq_iff_eq, if_neg h]
      exact ih

theorem alookup_aset_ne {β : Type} (l : List (String × β)) (k k' : String) (v : β)
    (h : k ≠ k') : alookup (aset l k v) k' = alookup l k' := by
  induction l with
  | nil => simp [aset, alookup, beq_iff_eq, h]
  | cons p rest ih =>
    obtain ⟨k₀, v₀⟩ := p
    by_cases h0 : k₀ = k
    · subst h0; simp [aset, alookup, beq_iff_eq, h]
    · simp only [aset, alookup, beq_iff_eq, if_neg h0]
      by_cases h1 : k₀ = k'
      · simp [h1]
      · simp only [if_neg h1]; exact ih

/-- With nodup keys, `alookup` finds exactly the bindings in the list. -/
theorem alookup_eq_some_iff {β : Type} (l : List (String × β)) (k : String) (v : β)
    (hnd : (l.map Prod.fst).Nodup) :
    alookup l k = some v ↔ (k, v) ∈ l := by
  induction l with
  | nil => simp [alookup]
  | cons p rest ih =>
    obtain ⟨k₀, v₀⟩ := p
    simp only [List.map_cons, List.nodup_cons] at hnd
    by_cases h0 : k₀ = k
    · subst h0
      simp only [alookup, beq_self_eq_true, if_pos, List.mem_cons, Option.some_inj]
      constructor
      · rintro rfl; exact Or.inl rfl
      · rintro (h | h)
        · exact (Prod.mk.injEq _ _ _ _ ▸ h).2.symm
        · exact absurd (List.mem_map_of_mem Prod.fst h) hnd.1
    · simp only [alookup, beq_iff_eq, if_neg h0, List.mem_cons]
      rw [ih hnd.2]
      constructor
      · exact Or.inr
      · rintro (h | h)
        · exact absurd (congrArg Prod.fst h).symm h0
        · exact h

/-! ### Substring search (Python `needle in haystack`) -/

/-- Python `p in l` on strings, at the character-list level: `p` occurs
as a contiguous run of `l`. -/
def hasSub : List Char → List Char → Bool
  | [], p => p.isPrefixOf []
  | c :: t, p => p.isPrefixOf (c :: t) || hasSub t p

theorem isPrefixOf_of_append_isPrefixOf (a b l : List Char)
    (h : (a ++ b).isPrefixOf l = true) : a.isPrefixOf l = true := by
  induction a generalizing l with
  | nil => simp [List.isPrefixOf]
  | cons x a' ih =>
    cases l with
    | nil => simp [List.isPrefixOf] at h
    | cons y l' =>
      simp only [List.cons_append, List.isPrefixOf, Bool.and_eq_true] at h ⊢
      exact ⟨h.1, ih l' h.2⟩

/-- Python `s.lower()` at the character-list level.  The strings this
program lower-cases are ASCII, where `Char.toLower` and `str.lower`
agree. -/
def lowerData (s : String) : List Char := s.data.map Char.toLower

/-- Python `s.strip()` at the character-list level: drop leading and
trailing whitespace. -/
def trimData (l : List Char) : List Char :=
  ((l.dropWhile Char.isWhitespace).reverse.dropWhile Char.isWhitespace).reverse

/-- Python `s.split(sep)` for nonempty `sep`, at the character-list
level: split at each leftmost non-overlapping occurrence.  `fuel` only
bounds the recursion depth; any value `≥ l.length` is exact, since every
step consumes at least one character. -/
def splitOnData : Nat → List Char → List Char → List (List Char)
  | _, [], _ => [[]]
  | 0, l, _ => [l]
  | fuel + 1, c :: t, sep =>
    if sep.isPrefixOf (c :: t) then
      [] :: splitOnData fuel ((c :: t).drop sep.length) sep
    else
      match splitOnData fuel t sep with
      | [] => [[c]]
      | x :: xs => (c :: x) :: xs

/-- If a string contains `p ++ q` it contains `p`. -/
theorem hasSub_of_hasSub_append (l p q : List Char)
    (h : hasSub l (p ++ q) = true) : hasSub l p = true := by
  induction l with
  | nil =>
    rw [hasSub] at h ⊢
    rcases List.append_eq_nil.mp (by simpa [List.isPrefixOf_iff_prefix] using h) with ⟨rfl, -⟩
    simp [List.isPrefixOf]
  | cons c t ih =>
    rw [hasSub, Bool.or_eq_true] at h ⊢
    rcases h with h | h
    · exact Or.inl (isPrefixOf_of_append_isPrefixOf p q (c :: t) h)
    · exact Or.inr (ih h)

/-! ### Selector learning system (`SelectorLearningSystem`) -/

/-- One record of `selector_success_history[element_type][selector]`
(`agent_browser.py` lines 127-132).  `last_used` is a timestamp. -/
structure SelectorRecord where
  success_count : Nat
  failure_count : Nat
  last_used : Nat
  success_rate : ℚ
deriving DecidableEq, Repr

/-- The freshly created record (lines 127-132); the `None` placed in
`last_used` there is overwritten before the call returns, so the initial
value is irrelevant and modelled as `0`. -/
def initRecord : SelectorRecord := ⟨0, 0, 0, 0⟩

abbrev ETHistory := List (String × SelectorRecord)
abbrev History := List (String × ETHistory)

/-- The mutation lines 134-145 of `record_selector_success` applied to the
entry: refresh `last_used`, bump one counter, recompute `success_rate`
from the two counters. -/
def updatedRecord (r : SelectorRecord) (success : Bool) (now : Nat) : SelectorRecord :=
  let r1 : SelectorRecord := { r with last_used := now }
  let r2 : SelectorRecord :=
    if success then { r1 with success_count := r1.success_count + 1 }
    else { r1 with failure_count := r1.failure_count + 1 }
  let total := r2.success_count + r2.failure_count
  { r2 with success_rate := if 0 < total then (r2.success_count : ℚ) / (total : ℚ) else 0 }

/-- `SelectorLearningSystem.record_selector_success` (lines 121-145). -/
def record_selector_success (h : History) (et sel : String) (success : Bool)
    (now : Nat) : History :=
  let eth := (alookup h et).getD []
  let eth := if (alookup eth sel).isSome then eth else aset eth sel initRecord
  let entry := (alookup eth sel).getD initRecord
  aset h et (aset eth sel (updatedRecord entry success now))

/-- Nested lookup `selector_success_history[element_type][selector]`. -/
def lookup2 (h : History) (et sel : String) : Option SelectorRecord :=
  (alookup h et).bind (fun m => alookup m sel)

/-- The sort key comparison of `get_prioritized_selectors` (line 155):
Python sorts by the tuple `(success_rate, last_used)` with
`reverse=True`; a stable descending sort places `a` no later than `b`
exactly when `a`'s key is lexicographically at least `b`'s. -/
def selGe (a b : String × SelectorRecord) : Prop :=
  b.2.success_rate < a.2.success_rate ∨
    (b.2.success_rate = a.2.success_rate ∧ b.2.last_used ≤ a.2.last_used)

instance : DecidableRel selGe := fun a b =>
  inferInstanceAs (Decidable (b.2.success_rate < a.2.success_rate ∨
    (b.2.success_rate = a.2.success_rate ∧ b.2.last_used ≤ a.2.last_used)))

instance : IsTotal (String × SelectorRecord) selGe where
  total a b := by
    rcases lt_trichotomy a.2.success_rate b.2.success_rate with h | h | h
    · exact Or.inr (Or.inl h)
    · rcases Nat.le_total b.2.last_used a.2.last_used with h' | h'
      · exact Or.inl (Or.inr ⟨h.symm, h'⟩)
      · exact Or.inr (Or.inr ⟨h, h'⟩)
    · exact Or.inl (Or.inl h)

instance : IsTrans (String × SelectorRecord) selGe where
  trans a b c hab hbc := by
    rcases hab with h1 | ⟨h1, h1'⟩ <;> rcases hbc with h2 | ⟨h2, h2'⟩
    · exact Or.inl (h2.trans h1)
    · exact Or.inl (lt_of_le_of_lt (le_of_eq h2) h1)
    · exact Or.inl (lt_of_lt_of_le h2 (le_of_eq h1))
    · exact Or.inr ⟨h2.trans h1, h2'.trans h1'⟩

/-- The learned prefix built in lines 151-163: sort the element type's
entries by `(success_rate, last_used)` descending (stably), keep those
with `success_rate > 0.3`, take the selector strings. -/
def learnedOf (h : History) (et : String) : List String :=
  match alookup h et with
  | none => []
  | some eth =>
    ((List.insertionSort selGe eth).filter
      (fun e => decide (mkRat 3 10 < e.2.success_rate))).map Prod.fst

/-- `SelectorLearningSystem.get_prioritized_selectors` (lines 147-169). -/
def get_prioritized_selectors (h : History) (et : String)
    (default_selectors : List String) : List String :=
  let learned := learnedOf h et
  learned ++ default_selectors.filter (fun s => !(learned.contains s))

/-- `SelectorLearningSystem.cache_script` / `get_cached_script`
cache entries (lines 174-178). -/
structure CachedScript where
  script : String
  created_at : Nat
  usage_count : Nat
deriving DecidableEq, Repr

abbrev Cache := List (String × CachedScript)

/-- The cache key `f"{element_type}_{context_hash}"` (lines 173, 182). -/
def cacheKey (et ch : String) : String := et ++ "_" ++ ch

/-- `SelectorLearningSystem.cache_script` (lines 171-178). -/
def cache_script (c : Cache) (et ch scriptText : String) (now : Nat) : Cache :=
  aset c (cacheKey et ch) ⟨scriptText, now, 0⟩

/-- `SelectorLearningSystem.get_cached_script` (lines 180-187): on a hit,
bump `usage_count` and return the script; on a miss return `None`. -/
def get_cached_script (c : Cache) (et ch : String) : Option String × Cache :=
  match alookup c (cacheKey et ch) with
  | some e =>
    (some e.script, aset c (cacheKey et ch) { e with usage_count := e.usage_count + 1 })
  | none => (none, c)

/-! ### Script Generation Client (`ask_agent_for_playwright_script`) -/

/-- The code-block extraction of lines 214-219: strip the response, then
take what lies between the first ` ```python ` fence and the next
` ``` `, else between the first two plain ` ``` ` fences, else the
stripped response itself. -/
def extract_script (raw : String) : String :=
  let script := trimData raw.data
  if hasSub script ("```python".data) then
    let afterFence := (splitOnData script.length script ("```python".data)).getD 1 []
    ⟨trimData ((splitOnData afterFence.length afterFence ("```".data)).getD 0 [])⟩
  else if hasSub script ("```".data) then
    ⟨trimData ((splitOnData script.length script ("```".data)).getD 1 [])⟩
  else ⟨script⟩

/-- `ask_agent_for_playwright_script` (lines 194-225).  The remote
chat-completion call is modelled by its outcome: `.error e` when the
OpenAI client raises (the function then re-raises `AI_ERROR: …`,
line 225), `.ok raw` when it returns a response body. -/
def ask_agent_for_playwright_script (response : Except String String) :
    Except String String :=
  match response with
  | .error e => .error ("AI_ERROR: " ++ e)
  | .ok raw => .ok (extract_script raw)

/-! ### Script Execution Sandbox (`execute_ai_script`) -/

/-- Outcome of invoking a script's entry routine on given arguments. -/
inductive ExecOutcome where
  | raises
  | diverges
  | value (b : Bool)

/-- Semantics of one generated script, as `execute_ai_script` observes
it: whether `exec(script, …)` raises while loading, and (if loading
succeeds) the first async callable found in the script's namespace, or
`none` when the namespace holds no such routine (lines 240-247). -/
structure ScriptModel where
  loadRaises : Bool
  entry : Option (List String → ExecOutcome)

/-- `execute_ai_script` (lines 228-256).  Every exception raised while
loading or running is caught and turned into `False` (lines 255-256);
a missing entry point gives `False` (lines 252-253); the entry point's
boolean is passed through.  There is no timeout of any kind around the
`await` on line 250, so a non-terminating entry routine makes the call
itself never return — modelled as `none`. -/
def execute_ai_script (s : ScriptModel) (args : List String) : Option Bool :=
  if s.loadRaises then some false
  else
    match s.entry with
    | none => some false
    | some f =>
      match f args with
      | .raises => some false
      | .diverges => none
      | .value b => some b

/-! ### Element Interaction Orchestrator (`smart_click` / `smart_fill`) -/

/-- `LENS_SELECTORS` from `constants.py` (lines 1-52), as the lookup
`LENS_SELECTORS.get(element_type, [])` used on lines 292 and 353. -/
def LENS_SELECTORS (et : String) : List String :=
  if et == "url_input" then
    ["role=textbox[name=\"Paste image link\"]",
     "input[type=\"url\"]",
     "input[placeholder*=\"image\"]",
     "input[placeholder*=\"URL\"]",
     "input[placeholder*=\"link\"]",
     "input[aria-label*=\"image\"]",
     "input[aria-label*=\"URL\"]",
     "input[aria-label*=\"link\"]",
     "textarea[placeholder*=\"image\"]",
     "textarea[placeholder*=\"URL\"]",
     "div[contenteditable=\"true\"]",
     "input[type=\"text\"]",
     "role=textbox[placeholder*=\"image link\"]"]
  else if et == "search_button" then
    ["role=button[name=\"Search\"]",
     "button[type=\"submit\"]",
     "button:has-text(\"Search\")",
     "button[aria-label*=\"Search\"]",
     "button[aria-label*=\"search\"]",
     "input[type=\"submit\"]",
     "div[role=\"button\"]:has-text(\"Search\")",
     "span:has-text(\"Search\")",
     "button:has([aria-label*=\"search\"])"]
  else if et == "visual_matches_tab" then
    ["role=tab[name=\"Visual matches\"]",
     "role=button[name=\"Visual matches\"]",
     "div[role=\"tab\"]:has-text(\"Visual matches\")",
     "button:has-text(\"Visual matches\")",
     "a:has-text(\"Visual matches\")",
     "div[aria-label*=\"Visual matches\"]",
     "span:has-text(\"Visual matches\")",
     "div:has-text(\"Visual matches\")",
     "[data-test*=\"visual\"]",
     "div[role=\"button\"]:has-text(\"Visual\")"]
  else if et == "exact_matches_tab" then
    ["role=tab[name=\"Exact matches\"]",
     "role=button[name=\"Exact matches\"]",
     "div[role=\"tab\"]:has-text(\"Exact matches\")",
     "button:has-text(\"Exact matches\")",
     "a:has-text(\"Exact matches\")",
     "div[aria-label*=\"Exact matches\"]",
     "span:has-text(\"Exact matches\")",
     "div:has-text(\"Exact matches\")",
     "[data-test*=\"exact\"]",
     "div[role=\"button\"]:has-text(\"Exact\")"]
  else []

/-- The mutable state of the ambient `learning_system` singleton. -/
structure SLSState where
  history : History
  cache : Cache

/-- Environment for one `smart_click` / `smart_fill` call: the outcome of
each primitive operation against the live page and the remote model.
`attemptOk s` is whether locating-and-acting on selector `s` succeeds
(`False` models the raised-and-caught exception of the per-selector
`try`); `html` is `get_page_html_context` (already `""` when
`page.content()` raised, lines 259-265); `contextHash` models
`str(hash(html_context))`; `genResponse` is the remote completion
outcome; `run` gives each script text its execution semantics; `now` is
the wall clock used for `last_used` / `created_at`. -/
structure InteractEnv where
  attemptOk : String → Bool
  html : String
  contextHash : String
  genResponse : Except String String
  run : String → ScriptModel
  now : Nat

/-- The selector-tier loop (lines 297-317 / 358-372): try each selector
in order, recording the outcome of every attempt; stop at the first
success. -/
def trySelectors (env : InteractEnv) (et : String) :
    History → List String → Bool × History
  | h, [] => (false, h)
  | h, s :: rest =>
    if env.attemptOk s then (true, record_selector_success h et s true env.now)
    else trySelectors env et (record_selector_success h et s false env.now) rest

/-- The generation tier (strategy 3, lines 330-347 / 384-399): ask the
agent for a script; any exception from the call is caught (logged, fall
through to `return False`); otherwise run the script, caching it on
success.  `none` models the un-timed-out await never returning. -/
def genTier (st : SLSState) (env : InteractEnv) (et : String) (args : List String) :
    Option Bool × SLSState :=
  match ask_agent_for_playwright_script env.genResponse with
  | .error _ => (some false, st)
  | .ok script =>
    match execute_ai_script (env.run script) args with
    | none => (none, st)
    | some true =>
      (some true, { st with cache := cache_script st.cache et env.contextHash script env.now })
    | some false => (some false, st)

/-- The cache tier followed by the generation tier (strategies 2-3).
On a cache hit whose execution returns `True` the action succeeds; a
miss or a `False`/raised execution falls through to generation
(lines 319-328 / 374-382). -/
def cacheThenGen (st : SLSState) (env : InteractEnv) (et : String) (args : List String) :
    Option Bool × SLSState :=
  match get_cached_script st.cache et env.contextHash with
  | (some scr, c1) =>
    match execute_ai_script (env.run scr) args with
    | none => (none, { st with cache := c1 })
    | some true => (some true, { st with cache := c1 })
    | some false => genTier { st with cache := c1 } env et args
  | (none, c1) => genTier { st with cache := c1 } env et args

/-- `smart_click` (lines 286-347).  `add_human_like_behavior` and the
randomized waits do not affect the returned value and are omitted.  The
result is `some b` when the call returns the boolean `b`, `none` when an
executed script never terminates (no exception constructor exists: every
`except` in the source catches and converts to a boolean). -/
def smart_click (st : SLSState) (env : InteractEnv) (element_type element_name : String) :
    Option Bool × SLSState :=
  let defaults := LENS_SELECTORS element_type
  let pri := get_prioritized_selectors st.history element_type defaults
  let t1 := trySelectors env element_type st.history pri
  if t1.1 then (some true, { st with history := t1.2 })
  else cacheThenGen { st with history := t1.2 } env element_type []

/-- `smart_fill` (lines 350-401): same three-tier structure, with the
fill value passed to cached and generated scripts as an extra argument. -/
def smart_fill (st : SLSState) (env : InteractEnv) (element_type value : String) :
    Option Bool × SLSState :=
  let defaults := LENS_SELECTORS element_type
  let pri := get_prioritized_selectors st.history element_type defaults
  let t1 := trySelectors env element_type st.history pri
  if t1.1 then (some true, { st with history := t1.2 })
  else cacheThenGen { st with history := t1.2 } env element_type [value]

/-! ### No-matches detection (`check_for_no_matches`) -/

/-- The state of the live page as `check_for_no_matches` observes it:
`selectorVisible s` is whether `page.locator(s).first.is_visible()`
returns `True` (an exception inside the per-selector `try` behaves as
`False`, line 685-686); `contentOk`/`content` model `page.content()`
(lines 689-705, exception caught and logged); `linkCount` is the result
of the external-link counting `page.evaluate` (lines 708-725), `none`
when that evaluation raised (caught and logged). -/
structure NoMatchPage where
  selectorVisible : String → Bool
  contentOk : Bool
  content : String
  linkCount : Option Nat

/-- The `no_matches_selectors` list (lines 665-678). -/
def no_matches_selectors : List String :=
  ["text=\"No matches for your search\"",
   "text=\"No results found\"",
   "text=\"No matches found\"",
   "text=\"To get better results, try changing the search area\"",
   "text=\"sending a different image\"",
   "[data-test-id=\"no-results\"]",
   ".no-results",
   ".empty-state",
   "*:has-text(\"No matches for your search\")",
   "*:has-text(\"No results found\")",
   "*:has-text(\"better results\")",
   "*:has-text(\"different image\")"]

/-- The `no_matches_phrases` list (lines 691-699). -/
def no_matches_phrases : List String :=
  ["No matches for your search",
   "No results found",
   "No matches found",
   "try changing the search area",
   "sending a different image",
   "better results",
   "different image"]

/-- `check_for_no_matches` (lines 657-730): any visible no-matches
locator, else any phrase contained case-insensitively in the page
content, else an external-link count of at most 1, classifies the page
as empty; otherwise (including when the link count evaluation raised)
the page is not empty. -/
def check_for_no_matches (p : NoMatchPage) : Bool :=
  if no_matches_selectors.any p.selectorVisible then true
  else if p.contentOk &&
      no_matches_phrases.any (fun ph => hasSub (lowerData p.content) (lowerData ph)) then
    true
  else
    match p.linkCount with
    | some n => decide (n ≤ 1)
    | none => false

/-! ### Search Session Orchestrator (`lens_search`) -/

-- The `StatusCode` enumeration (lines 33-44).
namespace StatusCode

def SUCCESS : Nat := 200
def NO_MATCHES : Nat := 404
def RATE_LIMITED : Nat := 429
def IP_BLOCKED : Nat := 403
def TIMEOUT : Nat := 408
def INVALID_URL : Nat := 400
def SERVER_ERROR : Nat := 500
def NETWORK_ERROR : Nat := 502
def PROXY_ERROR : Nat := 503
def AI_ERROR : Nat := 507
def UNKNOWN_ERROR : Nat := 520

end StatusCode

/-- A value of the heterogeneous `result` dict: either a list of
extracted links for a tab, or the literal message string stored on the
no-matches path (line 833). -/
inductive RVal where
  | items : List String → RVal
  | msg : String → RVal
deriving DecidableEq, Repr

/-- The response dict built by `lens_search` (also `LensSearchResponse`,
lines 64-69). -/
structure SearchOutcome where
  status_code : Nat
  message : String
  result : List (String × RVal)
  total_results : Nat
  status : String
deriving DecidableEq, Repr

/-- `not image_url or not image_url.startswith(('http://', 'https://'))`
(line 737), negated. -/
def validUrl (u : String) : Bool :=
  !u.data.isEmpty && ("http://".data.isPrefixOf u.data || "https://".data.isPrefixOf u.data)

/-- The blocking/CAPTCHA marker check of lines 776 and 816:
`"unusual traffic" in content.lower() or "captcha" in content.lower()`. -/
def blocked (content : String) : Bool :=
  hasSub (lowerData content) ("unusual traffic".data) ||
    hasSub (lowerData content) ("captcha".data)

/-- Per-tab page state and extraction outcomes.  `nmPage` is the page as
seen by the per-tab no-matches check (line 874); `extractNm` as seen by
the checks inside `extract_product_data` (lines 620, 636); `predef` and
`ai` are the results of `extract_with_predefined_selectors` and
`extract_with_ai` (each already `[]` when their page evaluation raised). -/
structure TabPage where
  nmPage : NoMatchPage
  extractNm : NoMatchPage
  predef : List String
  ai : List String

/-- `extract_product_data` (lines 612-639): empty on a no-matches page,
else the predefined-selector links if any, else the AI-extracted links
if any, else empty (the final re-check returns `[]` on both branches). -/
def extract_product_data (t : TabPage) : List String :=
  if check_for_no_matches t.extractNm then []
  else if !t.predef.isEmpty then t.predef
  else if !t.ai.isEmpty then t.ai
  else []

/-- Environment for one `lens_search` call.  `directNavOk` is whether
`page.goto(direct_lens_url, …)` succeeds (line 771); `content1` the page
content read on line 775 after direct navigation; `manualFillOk` /
`manualClickOk` the boolean outcomes of the fallback `smart_fill` /
`smart_click` (lines 790, 801 — abstracted here to their results, which
is all `lens_search` inspects); `content2` the content re-read on
line 815; `nmPage` the page as seen by the `check_for_no_matches` call
on line 828; `tabs` the per-tab state, keyed by tab type. -/
structure LensEnv where
  directNavOk : Bool
  content1 : String
  manualFillOk : Bool
  manualClickOk : Bool
  content2 : String
  nmPage : NoMatchPage
  tabs : String → TabPage

/-- The `search_type` dispatch of lines 841-861: the tab list to
process, or `none` for an unrecognized search type. -/
def tabsFor (search_type : String) : Option (List (String × String)) :=
  if search_type == "both" then
    some [("visual_matches_tab", "Visual matches"), ("exact_matches_tab", "Exact matches")]
  else if search_type == "visual_matches" then
    some [("visual_matches_tab", "Visual matches")]
  else if search_type == "exact_matches" then
    some [("exact_matches_tab", "Exact matches")]
  else if search_type == "all" then
    some [("current_page", "All")]
  else none

/-- `tab_name.lower().replace(' ', '_')` (lines 876, 882). -/
def keyName (tab_name : String) : String :=
  ⟨(lowerData tab_name).map (fun c => if c = ' ' then '_' else c)⟩

/-- One iteration of the tab loop (lines 864-883): re-check no-matches
for the tab (empty list on a hit), else extract.  The tab-switching
click only mutates the live page, whose resulting state `env.tabs`
already reflects. -/
def processTab (env : LensEnv) (tab_type tab_name : String) : String × List String :=
  let t := env.tabs tab_type
  if check_for_no_matches t.nmPage then (keyName tab_name, [])
  else (keyName tab_name, extract_product_data t)

/-- `lens_search` (lines 733-961), for runs in which no exception escapes
to the outer handlers (every modelled primitive outcome is encoded in
`env`; the `finally` cleanup and the learning-store flushes are
effects on collaborators, not on the returned outcome).  The ignored
result of `wait_for_results` (line 811) only sets an unused local. -/
def lens_search (image_url search_type : String) (env : LensEnv) : SearchOutcome :=
  if !(validUrl image_url) then
    ⟨StatusCode.INVALID_URL, "Invalid image URL provided", [], 0, "error"⟩
  else
    -- lines 770-783: the direct strategy "succeeds" when navigation works
    -- and the content shows no blocking marker; otherwise the except
    -- branch runs the manual fallback.
    let directOk := env.directNavOk && !(blocked env.content1)
    if !directOk && !env.manualFillOk then
      ⟨StatusCode.SERVER_ERROR, "Failed to fill URL input field", [], 0, "error"⟩
    else if !directOk && !env.manualClickOk then
      ⟨StatusCode.SERVER_ERROR, "Failed to click search button", [], 0, "error"⟩
    else if blocked env.content2 then
      ⟨StatusCode.RATE_LIMITED, "Rate limited or IP blocked by Google", [], 0, "rate_limited"⟩
    else if check_for_no_matches env.nmPage then
      ⟨StatusCode.NO_MATCHES, "No matches found for your search",
        [("message", RVal.msg "No matches found for your search")], 0, "no_matches"⟩
    else
      match tabsFor search_type with
      | none => ⟨StatusCode.INVALID_URL, "Invalid search type provided", [], 0, "error"⟩
      | some tabs =>
        let results := tabs.map (fun tp => processTab env tp.1 tp.2)
        let total := (results.map (fun kv => kv.2.length)).sum
        if 0 < total then
          ⟨StatusCode.SUCCESS, "Search completed successfully",
            results.map (fun kv => (kv.1, RVal.items kv.2)), total, "success"⟩
        else
          ⟨StatusCode.NO_MATCHES, "No results found",
            results.map (fun kv => (kv.1, RVal.items kv.2)), 0, "no_results"⟩

/-! ### Helper lemmas about `check_for_no_matches` -/

/-- A page whose content contains (case-insensitively) one of the known
no-matches phrases is classified as empty. -/
theorem check_of_phrase (p : NoMatchPage) (ph : String) (hmem : ph ∈ no_matches_phrases)
    (hok : p.contentOk = true)
    (h : hasSub (lowerData p.content) (lowerData ph) = true) :
    check_for_no_matches p = true := by
  unfold check_for_no_matches
  by_cases hsel : no_matches_selectors.any p.selectorVisible
  · simp [hsel]
  · have hany : no_matches_phrases.any
        (fun ph => hasSub (lowerData p.content) (lowerData ph)) = true :=
      List.any_eq_true.mpr ⟨ph, hmem, h⟩
    simp [hsel, hok, hany]

/-- A page with at most one external link is classified as empty,
whatever the phrase and locator checks said. -/
theorem check_of_low_links (p : NoMatchPage) (n : Nat)
    (h : p.linkCount = some n) (hn : n ≤ 1) :
    check_for_no_matches p = true := by
  unfold check_for_no_matches
  by_cases hsel : no_matches_selectors.any p.selectorVisible
  · simp [hsel]
  · by_cases hph : (p.contentOk &&
        no_matches_phrases.any (fun ph => hasSub (lowerData p.content) (lowerData ph))) = true
    · simp [hsel, hph]
    · simp [hsel, hph, h, hn]

/-! ### C3 -/

/-- C3: storing a script and immediately looking it up with the same
element type and fingerprint returns exactly the stored text and bumps
that entry's `usage_count` from 0 to 1; a lookup of an absent key
returns a miss (`none`) and leaves the cache unchanged (no error path
exists). -/
theorem c3_cache_store_then_lookup :
    (∀ (c : Cache) (et ch scr : String) (now : Nat),
      alookup (cache_script c et ch scr now) (cacheKey et ch) = some ⟨scr, now, 0⟩ ∧
      (get_cached_script (cache_script c et ch scr now) et ch).1 = some scr ∧
      alookup (get_cached_script (cache_script c et ch scr now) et ch).2 (cacheKey et ch) =
        some ⟨scr, now, 1⟩) ∧
    (∀ (c : Cache) (et ch : String),
      alookup c (cacheKey et ch) = none → get_cached_script c et ch = (none, c)) := by
  constructor
  · intro c et ch scr now
    have h1 : alookup (cache_script c et ch scr now) (cacheKey et ch) = some ⟨scr, now, 0⟩ :=
      alookup_aset_self ..
    refine ⟨h1, ?_, ?_⟩
    · simp [get_cached_script, h1]
    · simp [get_cached_script, h1, alookup_aset_self]
  · intro c et ch h
    simp [get_cached_script, h]

/-- C3 witness: concrete store-then-lookup round trip, and a miss on the
empty cache. -/
theorem c3_witness :
    (get_cached_script (cache_script [] "submit" "h42" "await x" 7) "submit" "h42").1 =
      some "await x" ∧
    alookup (get_cached_script (cache_script [] "submit" "h42" "await x" 7) "submit" "h42").2
      (cacheKey "submit" "h42") = some ⟨"await x", 7, 1⟩ ∧
    get_cached_script ([] : Cache) "submit" "h42" = (none, []) :=
  ⟨(c3_cache_store_then_lookup.1 [] "submit" "h42" "await x" 7).2.1,
   (c3_cache_store_then_lookup.1 [] "submit" "h42" "await x" 7).2.2,
   c3_cache_store_then_lookup.2 [] "submit" "h42" rfl⟩

/-! ### C4 -/

/-- C4 (counterexample): `execute_ai_script` wraps the entry-point call
in `try/except` but in no timeout, so a script whose entry routine never
terminates makes the call itself never return (modelled `none`) — it
does not yield `false` as the claim states. -/
theorem c4_counterexample :
    execute_ai_script ⟨false, some fun _ => ExecOutcome.diverges⟩ [] ≠ some false := by
  simp [execute_ai_script]

/-- C4 (amended): the sandbox returns `false` rather than raising when
loading raises, when the namespace holds no async callable entry point,
or when the entry routine raises; when the entry routine returns a
boolean, that boolean is passed through.  (A non-terminating entry
routine hangs the call: the source has no sandbox-level timeout.) -/
theorem c4_sandbox_soft_failure :
    (∀ (m : ScriptModel) (a : List String), m.loadRaises = true →
      execute_ai_script m a = some false) ∧
    (∀ (m : ScriptModel) (a : List String), m.entry = none →
      execute_ai_script m a = some false) ∧
    (∀ (m : ScriptModel) (f : List String → ExecOutcome) (a : List String),
      m.loadRaises = false → m.entry = some f → f a = ExecOutcome.raises →
      execute_ai_script m a = some false) ∧
    (∀ (m : ScriptModel) (f : List String → ExecOutcome) (a : List String) (b : Bool),
      m.loadRaises = false → m.entry = some f → f a = ExecOutcome.value b →
      execute_ai_script m a = some b) := by
  refine ⟨?_, ?_, ?_, ?_⟩
  · intro m a h; simp [execute_ai_script, h]
  · intro m a h; cases hl : m.loadRaises <;> simp [execute_ai_script, h, hl]
  · intro m f a h1 h2 h3; simp [execute_ai_script, h1, h2, h3]
  · intro m f a b h1 h2 h3; simp [execute_ai_script, h1, h2, h3]

/-- C4 witness: the four amended cases at concrete scripts. -/
theorem c4_witness :
    execute_ai_script ⟨true, none⟩ [] = some false ∧
    execute_ai_script ⟨false, none⟩ [] = some false ∧
    execute_ai_script ⟨false, some fun _ => ExecOutcome.raises⟩ [] = some false ∧
    execute_ai_script ⟨false, some fun _ => ExecOutcome.value true⟩ ["v"] = some true :=
  ⟨c4_sandbox_soft_failure.1 _ _ rfl,
   c4_sandbox_soft_failure.2.1 _ _ rfl,
   c4_sandbox_soft_failure.2.2.1 _ _ _ rfl rfl rfl,
   c4_sandbox_soft_failure.2.2.2 _ _ _ _ rfl rfl rfl⟩

/-! ### C6 -/

/-- C6: a page whose content matches none of the no-matches phrases but
whose external-link count is zero is still classified as empty; each of
the two conditions (a phrase match with readable content, or a link
count of at most one) suffices on its own. -/
theorem c6_no_matches_link_heuristic :
    (∀ p : NoMatchPage,
      (∀ ph ∈ no_matches_phrases, hasSub (lowerData p.content) (lowerData ph) = false) →
      p.linkCount = some 0 →
      check_for_no_matches p = true) ∧
    (∀ (p : NoMatchPage) (n : Nat), p.linkCount = some n → n ≤ 1 →
      check_for_no_matches p = true) ∧
    (∀ p : NoMatchPage, p.contentOk = true →
      (∃ ph ∈ no_matches_phrases, hasSub (lowerData p.content) (lowerData ph) = true) →
      check_for_no_matches p = true) := by
  refine ⟨?_, ?_, ?_⟩
  · intro p _ h0
    exact check_of_low_links p 0 h0 (by omega)
  · intro p n h hn
    exact check_of_low_links p n h hn
  · rintro p hok ⟨ph, hmem, hph⟩
    exact check_of_phrase p ph hmem hok hph

/-- C6 witness: a page with unrelated content and zero external links is
classified as empty; so is a page containing a no-matches phrase. -/
theorem c6_witness :
    check_for_no_matches ⟨fun _ => false, true, "great shoe deals", some 0⟩ = true ∧
    check_for_no_matches ⟨fun _ => false, true, "Sorry, No Matches Found here", some 50⟩ = true :=
  ⟨c6_no_matches_link_heuristic.1 ⟨fun _ => false, true, "great shoe deals", some 0⟩
      (by decide) rfl,
   c6_no_matches_link_heuristic.2.2 ⟨fun _ => false, true, "Sorry, No Matches Found here", some 50⟩
      rfl ⟨"No matches found", by decide, by decide⟩⟩

/-! ### C7 -/

/-- C7: a malformed `image_url` (empty, or not starting with `http://`
or `https://`) is rejected before any browser interaction — the outcome
is the same for every environment — with status code 400, the
invalid-URL message, an empty result mapping, zero results and the
`"error"` status tag. -/
theorem c7_invalid_url_rejected :
    ∀ (image_url search_type : String) (env : LensEnv),
      validUrl image_url = false →
      lens_search image_url search_type env =
        ⟨StatusCode.INVALID_URL, "Invalid image URL provided", [], 0, "error"⟩ := by
  intro u st env h
  simp [lens_search, h]

/-- A live-page state used to instantiate environment-polymorphic
theorems: nothing visible, unrelated content, five external links. -/
def samplePage : NoMatchPage := ⟨fun _ => false, true, "many shopping links", some 5⟩

/-- A benign concrete environment: direct navigation works, no blocking
markers, a results page with five links on every tab. -/
def sampleEnv : LensEnv :=
  ⟨true, "results page", true, true, "results page", samplePage,
   fun _ => ⟨samplePage, samplePage, ["http://a.shop", "http://b.shop"], []⟩⟩

/-- C7 witness: the end-to-end `"not-a-url"` example. -/
theorem c7_witness :
    validUrl "not-a-url" = false ∧
    lens_search "not-a-url" "all" sampleEnv =
      ⟨400, "Invalid image URL provided", [], 0, "error"⟩ :=
  ⟨by decide, c7_invalid_url_rejected "not-a-url" "all" sampleEnv (by decide)⟩

/-! ### C9 -/

/-- C9 (counterexample): a remote response carrying no code block at all
does not make `ask_agent_for_playwright_script` fail — it succeeds with
the raw (stripped) response text, contradicting the claim that a
generation error occurs exactly when the call errors *or the response
contains no parsable code block*. -/
theorem c9_counterexample :
    hasSub (trimData "hello".data) ("```".data) = false ∧
    ask_agent_for_playwright_script (Except.ok "hello") = Except.ok "hello" := by
  constructor
  · decide
  · rfl

/-- C9 (amended): the generation client fails (with an `AI_ERROR`-tagged
exception) exactly when the remote call errors; every successful remote
response yields a script.  The extraction rule on success: a response
with no fence marker is returned whitespace-stripped and otherwise
verbatim; a response containing a ` ```python ` fence yields the fenced
contents (concrete instance in the last conjunct). -/
theorem c9_generation_client :
    (∀ e : String, ask_agent_for_playwright_script (Except.error e) =
      Except.error ("AI_ERROR: " ++ e)) ∧
    (∀ raw : String, ∃ s : String,
      ask_agent_for_playwright_script (Except.ok raw) = Except.ok s) ∧
    (∀ raw : String, hasSub (trimData raw.data) ("```".data) = false →
      ask_agent_for_playwright_script (Except.ok raw) = Except.ok ⟨trimData raw.data⟩) ∧
    (ask_agent_for_playwright_script
        (Except.ok "Sure!\n```python\nasync def go(page):\n    return True\n```\nEnjoy") =
      Except.ok "async def go(page):\n    return True") := by
  refine ⟨fun e => rfl, fun raw => ⟨extract_script raw, rfl⟩, ?_, rfl⟩
  intro raw h
  have hpy : hasSub (trimData raw.data) ("```python".data) = false := by
    cases hc : hasSub (trimData raw.data) ("```python".data) with
    | false => rfl
    | true =>
      have hsplit : ("```".data ++ "python".data) = "```python".data := by decide
      have := hasSub_of_hasSub_append (trimData raw.data) ("```".data) ("python".data)
        (by rw [hsplit]; exact hc)
      rw [this] at h
      exact absurd h (by simp)
  simp [ask_agent_for_playwright_script, extract_script, hpy, h]

/-- C9 witness: the amended theorem at concrete inputs. -/
theorem c9_witness :
    ask_agent_for_playwright_script (Except.error "rate limit") =
      Except.error "AI_ERROR: rate limit" ∧
    ask_agent_for_playwright_script (Except.ok "  await page.click()  ") =
      Except.ok "await page.click()" :=
  ⟨c9_generation_client.1 "rate limit",
   by
    have := c9_generation_client.2.2.1 "  await page.click()  " (by decide)
    simpa using this⟩

/-! ### C10 -/

/-- C10: with a well-formed URL and a page free of blocking markers and
no-matches signals, an unrecognized `search_type` (anything other than
`"both"`, `"visual_matches"`, `"exact_matches"`, `"all"`) yields status
code 400, message `"Invalid search type provided"`, status `"error"`, an
empty result mapping and zero results; and the `search_type` value is
inspected only after navigation, the blocking re-check and the
no-matches check — a blocked page yields 429 and a no-matches page 404
for the very same invalid `search_type`. -/
theorem c10_search_type_validated_late :
    ∀ (image_url search_type : String) (env : LensEnv),
      validUrl image_url = true →
      env.directNavOk = true →
      blocked env.content1 = false →
      ((tabsFor search_type = none ↔
        search_type ≠ "both" ∧ search_type ≠ "visual_matches" ∧
          search_type ≠ "exact_matches" ∧ search_type ≠ "all") ∧
      (blocked env.content2 = false → check_for_no_matches env.nmPage = false →
        tabsFor search_type = none →
        lens_search image_url search_type env =
          ⟨StatusCode.INVALID_URL, "Invalid search type provided", [], 0, "error"⟩) ∧
      (blocked env.content2 = true →
        lens_search image_url search_type env =
          ⟨StatusCode.RATE_LIMITED, "Rate limited or IP blocked by Google", [], 0,
            "rate_limited"⟩) ∧
      (blocked env.content2 = false → check_for_no_matches env.nmPage = true →
        lens_search image_url search_type env =
          ⟨StatusCode.NO_MATCHES, "No matches found for your search",
            [("message", RVal.msg "No matches found for your search")], 0, "no_matches"⟩)) := by
  intro u st env hu hnav hb1
  refine ⟨?_, ?_, ?_, ?_⟩
  · unfold tabsFor
    split_ifs with h1 h2 h3 h4 <;>
      simp_all [beq_iff_eq]
  · intro hb2 hnm htabs
    simp [lens_search, hu, hnav, hb1, hb2, hnm, htabs]
  · intro hb2
    simp [lens_search, hu, hnav, hb1, hb2]
  · intro hb2 hnm
    simp [lens_search, hu, hnav, hb1, hb2, hnm]

/-- An environment whose second content read shows a CAPTCHA
interstitial. -/
def blockedEnv : LensEnv :=
  ⟨true, "results page", true, true, "please solve this CAPTCHA", samplePage,
   fun _ => ⟨samplePage, samplePage, [], []⟩⟩

/-- An environment whose results page carries an explicit no-matches
phrase. -/
def noMatchEnv : LensEnv :=
  ⟨true, "results page", true, true, "results page",
   ⟨fun _ => false, true, "No matches for your search", some 0⟩,
   fun _ => ⟨samplePage, samplePage, [], []⟩⟩

/-- C10 witness: the invalid search type `"fuzzy"` at a clean page (400),
a blocked page (429) and a no-matches page (404). -/
theorem c10_witness :
    lens_search "https://img.example/cat.png" "fuzzy" sampleEnv =
      ⟨400, "Invalid search type provided", [], 0, "error"⟩ ∧
    lens_search "https://img.example/cat.png" "fuzzy" blockedEnv =
      ⟨429, "Rate limited or IP blocked by Google", [], 0, "rate_limited"⟩ ∧
    lens_search "https://img.example/cat.png" "fuzzy" noMatchEnv =
      ⟨404, "No matches found for your search",
        [("message", RVal.msg "No matches found for your search")], 0, "no_matches"⟩ :=
  ⟨(c10_search_type_validated_late "https://img.example/cat.png" "fuzzy" sampleEnv
      (by decide) rfl (by decide)).2.1 (by decide) (by decide) (by decide),
   (c10_search_type_validated_late "https://img.example/cat.png" "fuzzy" blockedEnv
      (by decide) rfl (by decide)).2.2.1 (by decide),
   (c10_search_type_validated_late "https://img.example/cat.png" "fuzzy" noMatchEnv
      (by decide) rfl (by decide)).2.2.2 (by decide) (by decide)⟩

/-! ### C8 -/

/-- C8: a search with a valid image URL whose resulting page is not
blocked and contains the phrase `"No matches for your search"` returns
status code 404, zero total results, the no-matches message and status
tag, and a result mapping holding no extracted items for any tab (only
the message entry). -/
theorem c8_no_matches_phrase_outcome :
    ∀ (image_url search_type : String) (env : LensEnv),
      validUrl image_url = true →
      env.directNavOk = true →
      blocked env.content1 = false →
      blocked env.content2 = false →
      env.nmPage.contentOk = true →
      hasSub (lowerData env.nmPage.content) (lowerData "No matches for your search") = true →
      lens_search image_url search_type env =
        ⟨StatusCode.NO_MATCHES, "No matches found for your search",
          [("message", RVal.msg "No matches found for your search")], 0, "no_matches"⟩ ∧
      ∀ kv ∈ (lens_search image_url search_type env).result,
        ∀ l : List String, kv.2 ≠ RVal.items l := by
  intro u st env hu hnav hb1 hb2 hok hph
  have hnm : check_for_no_matches env.nmPage = true :=
    check_of_phrase env.nmPage "No matches for your search" (by decide) hok hph
  have houtcome : lens_search u st env =
      ⟨StatusCode.NO_MATCHES, "No matches found for your search",
        [("message", RVal.msg "No matches found for your search")], 0, "no_matches"⟩ := by
    simp [lens_search, hu, hnav, hb1, hb2, hnm]
  refine ⟨houtcome, ?_⟩
  rw [houtcome]
  rintro kv hkv l
  simp only [List.mem_singleton] at hkv
  subst hkv
  simp

/-- C8 witness: the end-to-end no-matches example. -/
theorem c8_witness :
    lens_search "https://img.example/cat.png" "all" noMatchEnv =
      ⟨404, "No matches found for your search",
        [("message", RVal.msg "No matches found for your search")], 0, "no_matches"⟩ :=
  (c8_no_matches_phrase_outcome "https://img.example/cat.png" "all" noMatchEnv
    (by decide) rfl (by decide) (by decide) rfl (by decide)).1

/-! ### C5 -/

/-- When every selector attempt fails, the selector tier reports failure
(after recording each failure). -/
theorem trySelectors_all_fail (env : InteractEnv) (et : String)
    (hf : ∀ s, env.attemptOk s = false) :
    ∀ (l : List String) (h : History), (trySelectors env et h l).1 = false := by
  intro l
  induction l with
  | nil => intro h; rfl
  | cons s rest ih =>
    intro h
    simp only [trySelectors, hf s, Bool.false_eq_true, if_false]
    exact ih _

/-- C5: `smart_click` and `smart_fill` reduce every failure to the value
`false` (the embedding has no exception outcome because every `except`
in the source converts to a boolean): when every prioritized selector
attempt fails and every executed script — cached or freshly generated —
completes with `False` (or the cache misses, or generation errors), both
actions return `false`. -/
theorem c5_smart_actions_total_failure :
    ∀ (st : SLSState) (env : InteractEnv) (element_type element_name value : String),
      (∀ s, env.attemptOk s = false) →
      (∀ scr a, execute_ai_script (env.run scr) a = some false) →
      (smart_click st env element_type element_name).1 = some false ∧
      (smart_fill st env element_type value).1 = some false := by
  intro st env et nm v hsel hexec
  have hgen : ∀ (st' : SLSState) (a : List String), (genTier st' env et a).1 = some false := by
    intro st' a
    unfold genTier
    cases hr : ask_agent_for_playwright_script env.genResponse with
    | error e => rfl
    | ok script => simp [hexec script a]
  have hcg : ∀ (st' : SLSState) (a : List String),
      (cacheThenGen st' env et a).1 = some false := by
    intro st' a
    unfold cacheThenGen
    cases hc : get_cached_script st'.cache et env.contextHash with
    | mk found c1 =>
      cases found with
      | some scr => simp [hexec scr a, hgen]
      | none => simp [hgen]
  constructor
  · unfold smart_click
    simp [trySelectors_all_fail env et hsel, hcg]
  · unfold smart_fill
    simp [trySelectors_all_fail env et hsel, hcg]

/-- C5 witness: a concrete environment in which every tier fails. -/
theorem c5_witness :
    (smart_click ⟨[], []⟩
      ⟨fun _ => false, "<html/>", "h77", Except.error "boom", fun _ => ⟨true, none⟩, 3⟩
      "search_button" "Search").1 = some false ∧
    (smart_fill ⟨[], []⟩
      ⟨fun _ => false, "<html/>", "h77", Except.error "boom", fun _ => ⟨true, none⟩, 3⟩
      "url_input" "https://img.example/cat.png").1 = some false :=
  ⟨(c5_smart_actions_total_failure ⟨[], []⟩
      ⟨fun _ => false, "<html/>", "h77", Except.error "boom", fun _ => ⟨true, none⟩, 3⟩
      "search_button" "Search" "https://img.example/cat.png"
      (fun _ => rfl) (fun _ _ => rfl)).1,
   (c5_smart_actions_total_failure ⟨[], []⟩
      ⟨fun _ => false, "<html/>", "h77", Except.error "boom", fun _ => ⟨true, none⟩, 3⟩
      "url_input" "Search" "https://img.example/cat.png"
      (fun _ => rfl) (fun _ _ => rfl)).2⟩

/-! ### C2 -/

/-- `recordOutcome` applied `N` times: fold the calls over a list of
`(outcome, timestamp)` observations. -/
def applyOutcomes (h : History) (et sel : String) (obs : List (Bool × Nat)) : History :=
  obs.foldl (fun acc o => record_selector_success acc et sel o.1 o.2) h

theorem updatedRecord_success_count (r : SelectorRecord) (b : Bool) (now : Nat) :
    (updatedRecord r b now).success_count = r.success_count + (if b then 1 else 0) := by
  cases b <;> simp [updatedRecord]

theorem updatedRecord_failure_count (r : SelectorRecord) (b : Bool) (now : Nat) :
    (updatedRecord r b now).failure_count = r.failure_count + (if b then 0 else 1) := by
  cases b <;> simp [updatedRecord]

/-- After any single update the stored rate is the quotient of the two
counters (the updated totals are positive, so the `else 0` branch is
dead). -/
theorem updatedRecord_rate (r : SelectorRecord) (b : Bool) (now : Nat) :
    (updatedRecord r b now).success_rate =
      ((updatedRecord r b now).success_count : ℚ) /
        (((updatedRecord r b now).success_count + (updatedRecord r b now).failure_count : Nat) : ℚ) := by
  cases b <;> simp [updatedRecord]

/-- One `record_selector_success` call updates exactly the addressed
entry, creating it from the zero counters when absent. -/
theorem record_lookup2 (h : History) (et sel : String) (b : Bool) (now : Nat) :
    lookup2 (record_selector_success h et sel b now) et sel =
      some (updatedRecord ((lookup2 h et sel).getD initRecord) b now) := by
  unfold record_selector_success lookup2
  cases hh : alookup h et with
  | none =>
    simp only [hh, Option.getD_none, Option.getD_some, alookup, Option.bind]
    rw [alookup_aset_self]
    simp only [Option.some_bind]
    rw [alookup_aset_self]
    simp [alookup]
  | some eth =>
    simp only [hh, Option.getD_some, Option.some_bind]
    cases hs : alookup eth sel with
    | none =>
      simp only [hs, Option.isSome_none, Bool.false_eq_true, if_false, Option.getD_none]
      rw [alookup_aset_self]
      simp only [Option.some_bind]
      rw [alookup_aset_self]
      rw [alookup_aset_self]
      simp
    | some r =>
      simp only [hs, Option.isSome_some, if_pos, Option.getD_some]
      rw [alookup_aset_self]
      simp only [Option.some_bind]
      rw [alookup_aset_self]

/-- Folding further observations over a history in which the entry
already exists adds the successes and failures to its counters and, as
soon as at least one observation is folded, leaves the rate equal to the
quotient of the final counters. -/
theorem applyOutcomes_counts :
    ∀ (obs : List (Bool × Nat)) (h : History) (et sel : String) (r : SelectorRecord),
      lookup2 h et sel = some r →
      ∃ r', lookup2 (applyOutcomes h et sel obs) et sel = some r' ∧
        r'.success_count = r.success_count + obs.countP (fun o => o.1) ∧
        r'.failure_count = r.failure_count + obs.countP (fun o => !o.1) ∧
        (obs = [] → r' = r) ∧
        (obs ≠ [] → r'.success_rate =
          (r'.success_count : ℚ) / ((r'.success_count + r'.failure_count : Nat) : ℚ)) := by
  intro obs
  induction obs with
  | nil =>
    intro h et sel r hr
    exact ⟨r, hr, by simp, by simp, fun _ => rfl, fun hne => absurd rfl hne⟩
  | cons o rest ih =>
    intro h et sel r hr
    have hstep := record_lookup2 h et sel o.1 o.2
    rw [hr] at hstep
    simp only [Option.getD_some] at hstep
    have happly : applyOutcomes h et sel (o :: rest) =
        applyOutcomes (record_selector_success h et sel o.1 o.2) et sel rest := rfl
    obtain ⟨r', hl, hs, hf, hnil, hrate⟩ :=
      ih (record_selector_success h et sel o.1 o.2) et sel _ hstep
    refine ⟨r', by rw [happly]; exact hl, ?_, ?_, by simp, ?_⟩
    · rw [hs, updatedRecord_success_count, List.countP_cons]
      cases hb : o.1 <;> simp <;> omega
    · rw [hf, updatedRecord_failure_count, List.countP_cons]
      cases hb : o.1 <;> simp <;> omega
    · intro _
      rcases List.eq_nil_or_concat rest with hrest | _
      · subst hrest
        rw [hnil rfl]
        exact updatedRecord_rate _ o.1 o.2
      · refine hrate ?_
        rintro rfl
        simp_all

theorem countP_not_add {α : Type} (p : α → Bool) (l : List α) :
    l.countP p + l.countP (fun a => !p a) = l.length := by
  induction l with
  | nil => simp
  | cons a t ih => cases hp : p a <;> simp [List.countP_cons, hp] <;> omega

/-- C2: after any nonempty sequence of `record_selector_success` calls
on an initially absent `(element_type, selector)` key — any interleaving
of `S` successes and `F = N - S` failures — the record exists with
`success_count = S`, `failure_count = F = N - S`, and a `success_rate`
equal both to `S / N` and, as after every single call (second conjunct,
for arbitrary histories, even ones whose stored rate had drifted), to
the quotient recomputed from the two stored counters. -/
theorem c2_record_outcome :
    (∀ (h : History) (et sel : String) (obs : List (Bool × Nat)),
      obs ≠ [] → lookup2 h et sel = none →
      ∃ r', lookup2 (applyOutcomes h et sel obs) et sel = some r' ∧
        r'.success_count = obs.countP (fun o => o.1) ∧
        r'.failure_count = obs.length - obs.countP (fun o => o.1) ∧
        r'.success_rate = (r'.success_count : ℚ) /
          ((r'.success_count + r'.failure_count : Nat) : ℚ) ∧
        r'.success_rate = ((obs.countP (fun o => o.1)) : ℚ) / (obs.length : ℚ)) ∧
    (∀ (h : History) (et sel : String) (b : Bool) (now : Nat) (r' : SelectorRecord),
      lookup2 (record_selector_success h et sel b now) et sel = some r' →
      r'.success_rate = (r'.success_count : ℚ) /
        ((r'.success_count + r'.failure_count : Nat) : ℚ)) := by
  constructor
  · intro h et sel obs hne habs
    cases obs with
    | nil => exact absurd rfl hne
    | cons o rest =>
      have hstep := record_lookup2 h et sel o.1 o.2
      rw [habs] at hstep
      simp only [Option.getD_none] at hstep
      obtain ⟨r', hl, hs, hf, hnil, hrate⟩ :=
        applyOutcomes_counts rest (record_selector_success h et sel o.1 o.2) et sel _ hstep
      have hS : r'.success_count = (o :: rest).countP (fun o => o.1) := by
        rw [hs, updatedRecord_success_count, List.countP_cons]
        cases hb : o.1 <;> simp [initRecord, hb] <;> omega
      have hF : r'.failure_count = (o :: rest).countP (fun o => !o.1) := by
        rw [hf, updatedRecord_failure_count, List.countP_cons]
        cases hb : o.1 <;> simp [initRecord, hb] <;> omega
      have htot : r'.success_count + r'.failure_count = (o :: rest).length := by
        rw [hS, hF]; exact countP_not_add _ _
      have hquot : r'.success_rate = (r'.success_count : ℚ) /
          ((r'.success_count + r'.failure_count : Nat) : ℚ) := by
        rcases List.eq_nil_or_concat rest with hrest | ⟨l2, a, hrest⟩
        · subst hrest
          rw [hnil rfl]
          exact updatedRecord_rate _ o.1 o.2
        · exact hrate (by simp [hrest])
      refine ⟨r', by exact hl, hS, ?_, hquot, ?_⟩
      · have := countP_not_add (fun o : Bool × Nat => o.1) (o :: rest)
        omega
      · rw [hquot, htot, hS]
  · intro h et sel b now r' hr'
    rw [record_lookup2] at hr'
    injection hr' with hr'
    rw [← hr']
    exact updatedRecord_rate _ b now

/-- C2 witness: four calls `success, failure, failure, success` on a
fresh key yield counts `(2, 2)` and rate `1/2`. -/
theorem c2_witness :
    ∃ r', lookup2 (applyOutcomes [] "search_button" "role=button" [(true, 1), (false, 2), (false, 3), (true, 4)]) "search_button" "role=button" = some r' ∧
      r'.success_count = 2 ∧ r'.failure_count = 2 ∧
      r'.success_rate = (2 : ℚ) / (4 : ℚ) := by
  obtain ⟨r', hl, hs, hf, _, hrate⟩ :=
    c2_record_outcome.1 [] "search_button" "role=button"
      [(true, 1), (false, 2), (false, 3), (true, 4)] (by simp) rfl
  exact ⟨r', hl, by simpa using hs, by simpa using hf, by simpa using hrate⟩

/-! ### C1 -/

/-- The 0.3 threshold of line 162, written `mkRat 3 10` in `learnedOf`
so that it evaluates, is the rational 3/10. -/
theorem threshold_eq : mkRat 3 10 = (3 : ℚ) / 10 := by
  rw [Rat.mkRat_eq_div]; norm_num

/-- C1: `get_prioritized_selectors` returns the learned prefix followed
by the defaults with learned duplicates removed (first conjunct, giving
the before-ness of every learned selector over every default-only one
and the preserved order of the defaults); the learned prefix contains
exactly the recorded selectors of this element type with
`success_rate > 0.30` (second conjunct — the others contribute
nothing); and it is ordered by success rate descending with ties broken
by larger (more recent) `last_used` first (third conjunct). -/
theorem c1_prioritized_selectors :
    ∀ (h : History) (et : String) (ds : List String),
      (((alookup h et).getD []).map Prod.fst).Nodup →
      get_prioritized_selectors h et ds =
        learnedOf h et ++ ds.filter (fun s => !((learnedOf h et).contains s)) ∧
      (∀ s, s ∈ learnedOf h et ↔
        ∃ r, lookup2 h et s = some r ∧ (3 / 10 : ℚ) < r.success_rate) ∧
      (learnedOf h et).Pairwise (fun s1 s2 =>
        ∀ r1 r2, lookup2 h et s1 = some r1 → lookup2 h et s2 = some r2 →
          r2.success_rate < r1.success_rate ∨
            (r2.success_rate = r1.success_rate ∧ r2.last_used ≤ r1.last_used)) := by
  intro h et ds hnd
  refine ⟨rfl, ?_, ?_⟩
  · intro s
    unfold learnedOf lookup2
    cases hh : alookup h et with
    | none => simp
    | some eth =>
      rw [hh, Option.getD_some] at hnd
      simp only [Option.some_bind, List.mem_map, List.mem_filter,
        (List.perm_insertionSort selGe eth).mem_iff]
      constructor
      · rintro ⟨⟨s', r⟩, ⟨hmem, hpred⟩, rfl⟩
        exact ⟨r, (alookup_eq_some_iff eth s' r hnd).mpr hmem,
          threshold_eq ▸ of_decide_eq_true hpred⟩
      · rintro ⟨r, hlook, hrate⟩
        exact ⟨(s, r), ⟨(alookup_eq_some_iff eth s r hnd).mp hlook,
          decide_eq_true (threshold_eq.symm ▸ hrate)⟩, rfl⟩
  · unfold learnedOf
    cases hh : alookup h et with
    | none => simp
    | some eth =>
      rw [hh, Option.getD_some] at hnd
      have hsorted : (List.insertionSort selGe eth).Pairwise selGe :=
        List.sorted_insertionSort selGe eth
      have hfil : ((List.insertionSort selGe eth).filter
          (fun e => decide (mkRat 3 10 < e.2.success_rate))).Pairwise selGe :=
        List.Pairwise.filter _ hsorted
      rw [List.pairwise_map]
      refine List.Pairwise.imp_of_mem ?_ hfil
      intro a b ha hb hR
      intro r1 r2 hr1 hr2
      have hamem : a ∈ eth :=
        (List.perm_insertionSort selGe eth).mem_iff.mp (List.mem_filter.mp ha).1
      have hbmem : b ∈ eth :=
        (List.perm_insertionSort selGe eth).mem_iff.mp (List.mem_filter.mp hb).1
      have ha2 : alookup eth a.1 = some a.2 :=
        (alookup_eq_some_iff eth a.1 a.2 hnd).mpr (by simpa using hamem)
      have hb2 : alookup eth b.1 = some b.2 :=
        (alookup_eq_some_iff eth b.1 b.2 hnd).mpr (by simpa using hbmem)
      rw [lookup2, hh, Option.some_bind, ha2] at hr1
      rw [lookup2, hh, Option.some_bind, hb2] at hr2
      injection hr1 with hr1
      injection hr2 with hr2
      rw [← hr1, ← hr2]
      exact hR

/-- A concrete learned history: for element type `"search_button"`,
selector `selA` has rate 1/10 (below the threshold), `selB` rate 4/5,
`selC` rate 1/2. -/
def c1History : History :=
  [("search_button",
    [("selA", ⟨1, 9, 10, mkRat 1 10⟩),
     ("selB", ⟨4, 1, 20, mkRat 4 5⟩),
     ("selC", ⟨1, 1, 30, mkRat 1 2⟩)])]

/-- C1 witness: on `c1History` the prioritized list is the learned
selectors above threshold, best first, followed by the unseen defaults
with the duplicate `selB` removed. -/
theorem c1_witness :
    get_prioritized_selectors c1History "search_button" ["selD", "selB"] =
      learnedOf c1History "search_button" ++
        (["selD", "selB"].filter
          (fun s => !((learnedOf c1History "search_button").contains s))) ∧
    (∀ s, s ∈ learnedOf c1History "search_button" ↔
      ∃ r, lookup2 c1History "search_button" s = some r ∧ (3 / 10 : ℚ) < r.success_rate) ∧
    get_prioritized_selectors c1History "search_button" ["selD", "selB"] =
      ["selB", "selC", "selD"] :=
  ⟨(c1_prioritized_selectors c1History "search_button" ["selD", "selB"] (by decide)).1,
   (c1_prioritized_selectors c1History "search_button" ["selD", "selB"] (by decide)).2.1,
   by decide⟩
